import Mathlib

/-!
Shallow embedding of `src/inspector_agent.cc` (the v8inspector agent):
the Session Client (`NodeInspectorClient`), its nested pause loop, the
frontend connect/disconnect lifecycle, fatal-exception reporting, the
`Agent` facade (`StartIoThread`, `Dispatch`, `Connect`, `Disconnect`,
`FatalException`, `WaitForDisconnect`, `PauseOnNextJavascriptStatement`)
and the script-visible `CallAndPauseOnStart` callback.

External collaborators (the v8 engine, the transport, the libuv loop, the
frontend delegate) are modelled as oracles: functions from call indices to
the results those collaborators return, so theorems quantify over every
possible behaviour of the environment.  C++ `assert` failures and
null-`unique_ptr` method calls are modelled as distinct fatal errors of an
`Except` result.
-/

namespace Inspector

/-- Fatal outcomes of a call: a failed C++ `assert`, or a member call through
a null `unique_ptr` (undefined behaviour in the source, modelled as its own
fatal error). -/
inductive Err where
  | assertFail
  | nullDeref
  deriving DecidableEq, Repr

/-- State of `NodeInspectorClient`: the `terminated_` and
`running_nested_loop_` flags and the (nullable) `channel_`.  The channel is
represented by its delegate identifier; the inspector-engine handle
(`client_`) is an external collaborator and carries no modelled state. -/
structure NodeInspectorClient where
  terminated : Bool
  running_nested_loop : Bool
  channel : Option Nat
  deriving DecidableEq, Repr

/-- The state of a freshly constructed `NodeInspectorClient`
(constructor: `terminated_(false), running_nested_loop_(false)`, null
channel). -/
def freshClient : NodeInspectorClient :=
  { terminated := false, running_nested_loop := false, channel := none }

/-- `quitMessageLoopOnPause`: sets `terminated_ = true`. -/
def quitMessageLoopOnPause (c : NodeInspectorClient) : NodeInspectorClient :=
  { c with terminated := true }

/-- `connectFrontend(delegate)`: asserts no channel is attached, then
creates the channel bound to the delegate. -/
def connectFrontend (delegate : Nat) (c : NodeInspectorClient) :
    Except Err NodeInspectorClient :=
  if c.channel.isSome then .error .assertFail
  else .ok { c with channel := some delegate }

/-- `disconnectFrontend()`: calls `quitMessageLoopOnPause()` (setting the
terminated flag), then resets the channel. -/
def disconnectFrontend (c : NodeInspectorClient) : NodeInspectorClient :=
  { quitMessageLoopOnPause c with channel := none }

/-! ### The nested pause loop

`runMessageLoopOnPause` interacts with two external collaborators:
`channel_->waitForFrontendMessage()` (which may dispatch protocol messages
and hence may call `quitMessageLoopOnPause`, setting `terminated_`) and
`v8::platform::PumpMessageLoop` (which runs a foreground task, which may
likewise set `terminated_`).  A `PauseEnv` is an oracle giving, for the
k-th wait call and the j-th pump call, the returned boolean and whether the
call's side effects set the terminated flag. -/

structure PauseEnv where
  waitResult : Nat → Bool
  waitSetsTerm : Nat → Bool
  pumpResult : Nat → Bool
  pumpSetsTerm : Nat → Bool

/-- Observable events of one `runMessageLoopOnPause` execution: the
`terminated_` test at the top of the outer loop, a
`waitForFrontendMessage` call with its result, and a `PumpMessageLoop`
call with its result. -/
inductive Ev where
  | checkTerm (v : Bool)
  | wait (r : Bool)
  | pump (r : Bool)
  deriving DecidableEq, Repr

/-- The inner drain loop `while (PumpMessageLoop(...)) {}`, fuelled.
Arguments: fuel, next pump index `j`, current terminated flag.  Returns the
next pump index, the terminated flag after the drain, and the trace of pump
calls; `none` when the fuel runs out before a pump returns false. -/
def pumpDrain (env : PauseEnv) : Nat → Nat → Bool → Option (Nat × Bool × List Ev)
  | 0, _, _ => none
  | fuel + 1, j, term =>
    let term1 := term || env.pumpSetsTerm j
    if env.pumpResult j then
      match pumpDrain env fuel (j + 1) term1 with
      | none => none
      | some (j', t', tr) => some (j', t', Ev.pump true :: tr)
    else some (j + 1, term1, [Ev.pump false])

/-- How the outer loop of `runMessageLoopOnPause` exited: the `terminated_`
flag was observed true, or `waitForFrontendMessage` returned false. -/
inductive ExitKind where
  | terminatedFlag
  | waitFalse
  deriving DecidableEq, Repr

/-- The outer loop
`while (!terminated_ && channel_->waitForFrontendMessage()) { drain }`,
fuelled.  Arguments: fuel, terminated flag, next wait index `k`, next pump
index `j`.  Returns the exit condition and the event trace; `none` when the
fuel runs out first. -/
def pauseLoop (env : PauseEnv) : Nat → Bool → Nat → Nat → Option (ExitKind × List Ev)
  | 0, _, _, _ => none
  | fuel + 1, term, k, j =>
    if term then some (.terminatedFlag, [Ev.checkTerm true])
    else if env.waitResult k then
      match pumpDrain env (fuel + 1) j (env.waitSetsTerm k) with
      | none => none
      | some (j', term', tr) =>
        match pauseLoop env fuel term' (k + 1) j' with
        | none => none
        | some (e, tr') => some (e, Ev.checkTerm false :: Ev.wait true :: (tr ++ tr'))
    else some (.waitFalse, [Ev.checkTerm false, Ev.wait false])

/-- Outcome of a `runMessageLoopOnPause` call that passed the channel
assertion: the re-entrancy guard returned immediately, or the loop ran and
exited. -/
inductive LoopOutcome where
  | reentrant
  | exited (e : ExitKind) (tr : List Ev)
  deriving DecidableEq, Repr

/-- `runMessageLoopOnPause`: asserts `channel_ != nullptr`; returns
immediately if `running_nested_loop_`; otherwise resets `terminated_`,
sets `running_nested_loop_`, runs the loop, then clears both flags.
`.ok none` means the fuel ran out (the loop had not yet exited). -/
def runMessageLoopOnPause (env : PauseEnv) (fuel : Nat) (c : NodeInspectorClient) :
    Except Err (Option (NodeInspectorClient × LoopOutcome)) :=
  if c.channel.isNone then .error .assertFail
  else if c.running_nested_loop then .ok (some (c, .reentrant))
  else
    match pauseLoop env fuel false 0 0 with
    | none => .ok none
    | some (e, tr) =>
      .ok (some ({ c with terminated := false, running_nested_loop := false },
                 .exited e tr))

/-- A maximal run of the inner drain loop: `PumpMessageLoop` returned true
some number of times and then false. -/
inductive PumpRun : List Ev → Prop
  | done : PumpRun [Ev.pump false]
  | more {tr} : PumpRun tr → PumpRun (Ev.pump true :: tr)

/-- Well-formed traces of the outer loop, tied to the exit condition: each
iteration checks the terminated flag (exiting if true), then waits (exiting
on false), then drains the pump queue to exhaustion and repeats. -/
inductive GoodTrace : List Ev → ExitKind → Prop
  | termExit : GoodTrace [Ev.checkTerm true] .terminatedFlag
  | waitExit : GoodTrace [Ev.checkTerm false, Ev.wait false] .waitFalse
  | step {p tr e} : PumpRun p → GoodTrace tr e →
      GoodTrace (Ev.checkTerm false :: Ev.wait true :: (p ++ tr)) e

/-- The empty listen path (the C++ code maps a null `path` argument to the
empty string). -/
def emptyPath : String := ""

/-- The details string of the `exceptionThrown` call. -/
def uncaughtDetails : String := "Uncaught"

/-- The pause reason `CallAndPauseOnStart` passes to
`PauseOnNextJavascriptStatement`. -/
def breakOnStart : String := "Break on start"

/-! ### Fatal-exception reporting (`NodeInspectorClient::FatalException`) -/

/-- The fields of a `v8::Message` that `FatalException` reads: the script
id of the message's script origin, whether `GetStackTrace()` is non-empty,
its frame count, the script id of frame 0 (meaningful when the frame count
is positive), and the maybe-valued line number and start column. -/
structure V8Message where
  scriptId : Int
  hasStackTrace : Bool
  frameCount : Int
  topFrameScriptId : Int
  lineNumber : Option Int
  startColumn : Option Int
  deriving DecidableEq, Repr

/-- The script id `FatalException` passes to `exceptionThrown`: zeroed when
the stack trace is non-empty, has a positive frame count, and its top
frame's script id equals the message's script id; the message's script id
otherwise. -/
def reportedScriptId (m : V8Message) : Int :=
  if m.hasStackTrace = true ∧ m.frameCount > 0 ∧ m.scriptId = m.topFrameScriptId
  then 0 else m.scriptId

/-- The arguments of the `client_->exceptionThrown` call that this module
computes (the context, error value, strings and stack-trace handle are
passed through from external collaborators and are not modelled). -/
structure ExceptionThrownArgs where
  details : String
  lineNumber : Int
  startColumn : Int
  scriptId : Int
  deriving DecidableEq, Repr

/-- `NodeInspectorClient::FatalException`: builds the `exceptionThrown`
call with details "Uncaught", the maybe-valued line/column defaulted to 0
(`FromMaybe(0)`) and the possibly-zeroed script id. -/
def clientFatalException (m : V8Message) : ExceptionThrownArgs :=
  { details := uncaughtDetails,
    lineNumber := m.lineNumber.getD 0,
    startColumn := m.startColumn.getD 0,
    scriptId := reportedScriptId m }

/-! ### The `Agent` facade -/

/-- State of `Agent`: the owned Session Client (null until `Start`), the
IO Thread Controller (null until `StartIoThread`), the `enabled_` flag and
the listen path.  Environment and platform pointers are external and carry
no modelled state; the controller's internal state is external, so `io`
only records its presence. -/
structure Agent where
  client : Option NodeInspectorClient
  io : Option Unit
  enabled : Bool
  path : String
  deriving DecidableEq, Repr

/-- A default-constructed `Agent` (`client_(nullptr)`, no controller,
`enabled_(false)`). -/
def Agent.init : Agent :=
  { client := none, io := none, enabled := false, path := emptyPath }

/-- Modelled from the spec: `Agent::IsStarted` is declared only in the
missing header `inspector_agent.h`.  The spec says `onFatalException` is a
"no-op if the agent was never started", and starting constructs the Session
Client (released again on transport-bind failure), so the agent counts as
started exactly while the Session Client exists. -/
def Agent.IsStarted (a : Agent) : Bool :=
  a.client.isSome

/-- `Agent::StartIoThread(wait_for_connect)`: returns true at once if the
controller exists; asserts the client exists; sets `enabled_`, constructs
the controller and starts it (`bindResult` is the transport's answer).  On
bind failure the Session Client is released and false is returned — the
controller itself is NOT reset.  The result also counts the transport binds
performed (0 or 1). -/
def Agent.StartIoThread (bindResult : Bool) (a : Agent) :
    Except Err (Agent × Bool × Nat) :=
  if a.io.isSome then .ok (a, true, 0)
  else if a.client.isNone then .error .assertFail
  else
    let a1 : Agent := { a with enabled := true, io := some () }
    if bindResult then .ok (a1, true, 1)
    else .ok ({ a1 with client := none }, false, 1)

/-- `Agent::Start(env, platform, path)`: records the path (`""` for a null
path), installs the `callAndPauseOnStart` global (external), constructs a
fresh Session Client, registers the context (external), arms the async wake
handle (external, asserted to succeed), then unconditionally calls
`StartIoThread(true)` and propagates its result. -/
def Agent.Start (bindResult : Bool) (path : Option String) (a : Agent) :
    Except Err (Agent × Bool) :=
  let a1 : Agent := { a with path := path.getD emptyPath, client := some freshClient }
  match Agent.StartIoThread bindResult a1 with
  | .error e => .error e
  | .ok (a2, r, _) => .ok (a2, r)

/-- `Agent::Stop()`: stops and releases the controller when present. -/
def Agent.Stop (a : Agent) : Agent :=
  if a.io.isSome then { a with io := none } else a

/-- `Agent::Connect(delegate)`: sets `enabled_`, then calls
`client_->connectFrontend(delegate)` — dereferencing `client_` without an
assertion, so a null client is a null-pointer member call. -/
def Agent.Connect (delegate : Nat) (a : Agent) : Except Err Agent :=
  match a.client with
  | none => .error .nullDeref
  | some c =>
    match connectFrontend delegate c with
    | .error e => .error e
    | .ok c' => .ok { a with enabled := true, client := some c' }

/-- `Agent::Disconnect()`: asserts the client exists, then calls
`client_->disconnectFrontend()`. -/
def Agent.Disconnect (a : Agent) : Except Err Agent :=
  match a.client with
  | none => .error .assertFail
  | some c => .ok { a with client := some (disconnectFrontend c) }

/-- `NodeInspectorClient::dispatchMessageFromFrontend`: asserts the channel
exists, then forwards the frame to the session handle (external). -/
def dispatchMessageFromFrontend (c : NodeInspectorClient) :
    Except Err NodeInspectorClient :=
  if c.channel.isNone then .error .assertFail else .ok c

/-- `Agent::Dispatch(message)`: asserts the client exists, then forwards to
`dispatchMessageFromFrontend`. -/
def Agent.Dispatch (a : Agent) : Except Err Agent :=
  match a.client with
  | none => .error .assertFail
  | some c =>
    match dispatchMessageFromFrontend c with
    | .error e => .error e
    | .ok c' => .ok { a with client := some c' }

/-- Events emitted by `Agent::FatalException` and
`Agent::WaitForDisconnect`: the `exceptionThrown` report (with the script
id it passes), the `contextDestroyed` call, and the blocking
`io_->WaitForDisconnect()` call. -/
inductive FxEv where
  | report (scriptId : Int)
  | ctxDestroyed
  | ioWait
  deriving DecidableEq, Repr

/-- `Agent::WaitForDisconnect()`: asserts the client exists, destroys the
registered context, then blocks in the controller's wait when a controller
exists. -/
def Agent.WaitForDisconnect (a : Agent) : Except Err (Agent × List FxEv) :=
  match a.client with
  | none => .error .assertFail
  | some _ =>
    .ok (a, FxEv.ctxDestroyed :: (if a.io.isSome then [FxEv.ioWait] else []))

/-- `Agent::FatalException(error, message)`: returns at once unless
`IsStarted()`; otherwise reports through
`client_->FatalException` and then calls `WaitForDisconnect()`. -/
def Agent.FatalException (m : V8Message) (a : Agent) :
    Except Err (Agent × List FxEv) :=
  if a.IsStarted = false then .ok (a, [])
  else
    match Agent.WaitForDisconnect a with
    | .error e => .error e
    | .ok (a', evs) => .ok (a', FxEv.report (reportedScriptId m) :: evs)

/-- Events of `Agent::PauseOnNextJavascriptStatement`: the channel's
`schedulePauseOnNextStatement` call with its reason. -/
inductive PEv where
  | scheduled (reason : String)
  deriving DecidableEq, Repr

/-- `Agent::PauseOnNextJavascriptStatement(reason)`: reads
`client_->channel()` (a null-pointer member call when the client is null)
and schedules a pause only when a channel is attached — silently doing
nothing otherwise. -/
def Agent.PauseOnNextJavascriptStatement (reason : String) (a : Agent) :
    Except Err (Agent × List PEv) :=
  match a.client with
  | none => .error .nullDeref
  | some c =>
    match c.channel with
    | none => .ok (a, [])
    | some _ => .ok (a, [PEv.scheduled reason])

/-! ### `CallAndPauseOnStart` (the script-visible debugger-entry callback) -/

/-- A v8 value as far as `CallAndPauseOnStart` inspects it: an opaque
identity plus whether `IsFunction()` holds. -/
structure V8Val where
  id : Nat
  isFunction : Bool
  deriving DecidableEq, Repr

/-- Events of `CallAndPauseOnStart`: the
`PauseOnNextJavascriptStatement("Break on start")` request, and the
`Function::Call` of the supplied function on the remaining arguments. -/
inductive CpEv where
  | pauseRequested (reason : String)
  | called (f : V8Val) (callArgs : List V8Val)
  deriving DecidableEq, Repr

/-- `CallAndPauseOnStart(args)`: asserts at least one argument and that the
first is a function; collects `args[1..]`, requests a pause with reason
"Break on start", then calls `args[0]` on them.  `call` is the external
engine's evaluation oracle (a `MaybeLocal` result, hence `Option`).  The
returned `Option V8Val` is the callback's return-value slot: set to the
call's result when non-empty, left unset otherwise. -/
def CallAndPauseOnStart (call : V8Val → List V8Val → Option V8Val)
    (args : List V8Val) : Except Err (Option V8Val × List CpEv) :=
  match args with
  | [] => .error .assertFail
  | f :: rest =>
    if f.isFunction = false then .error .assertFail
    else
      .ok (call f rest, [CpEv.pauseRequested breakOnStart, CpEv.called f rest])

/-! ### Connect/disconnect sequences (channel lifecycle) -/

/-- One frontend lifecycle operation on the Session Client. -/
inductive FrontOp where
  | connect (delegate : Nat)
  | disconnect
  deriving DecidableEq, Repr

/-- Run a sequence of `connectFrontend`/`disconnectFrontend` calls. -/
def runFrontOps : List FrontOp → NodeInspectorClient → Except Err NodeInspectorClient
  | [], c => .ok c
  | FrontOp.connect d :: t, c =>
    match connectFrontend d c with
    | .error e => .error e
    | .ok c' => runFrontOps t c'
  | FrontOp.disconnect :: t, c => runFrontOps t (disconnectFrontend c)

/-- Sequences in which no connect overlaps a prior connect without an
intervening disconnect, relative to whether a channel is currently
attached. -/
inductive WfOps : Bool → List FrontOp → Prop
  | nil (b : Bool) : WfOps b []
  | conn (d : Nat) (t : List FrontOp) : WfOps true t → WfOps false (FrontOp.connect d :: t)
  | disc (b : Bool) (t : List FrontOp) : WfOps false t → WfOps b (FrontOp.disconnect :: t)

/-- Spec-side channel occupancy: the channel reference is non-null exactly
between a `connect` and its matching `disconnect` (written from the spec's
words, to be compared with `runFrontOps` over the source's functions). -/
def channelPresentSpec : Bool → List FrontOp → Bool
  | b, [] => b
  | _, FrontOp.connect _ :: t => channelPresentSpec true t
  | _, FrontOp.disconnect :: t => channelPresentSpec false t


theorem pumpDrain_pumpRun (env : PauseEnv) :
    ∀ fuel j t j' t' tr, pumpDrain env fuel j t = some (j', t', tr) → PumpRun tr := by
  intro fuel
  induction fuel with
  | zero => intro j t j' t' tr h; simp [pumpDrain] at h
  | succ n ih =>
    intro j t j' t' tr h
    simp only [pumpDrain] at h
    split at h
    · split at h
      · exact absurd h (by simp)
      · rename_i j2 t2 tr2 hd
        simp only [Option.some.injEq, Prod.mk.injEq] at h
        obtain ⟨h1, h2, h3⟩ := h
        subst h3
        exact PumpRun.more (ih _ _ _ _ _ hd)
    · simp only [Option.some.injEq, Prod.mk.injEq] at h
      obtain ⟨h1, h2, h3⟩ := h
      subst h3
      exact PumpRun.done

theorem pauseLoop_goodTrace (env : PauseEnv) :
    ∀ fuel term k j e tr, pauseLoop env fuel term k j = some (e, tr) → GoodTrace tr e := by
  intro fuel
  induction fuel with
  | zero => intro term k j e tr h; simp [pauseLoop] at h
  | succ n ih =>
    intro term k j e tr h
    simp only [pauseLoop] at h
    split at h
    · simp only [Option.some.injEq, Prod.mk.injEq] at h
      obtain ⟨h1, h2⟩ := h
      subst h1; subst h2
      exact GoodTrace.termExit
    · split at h
      · split at h
        · exact absurd h (by simp)
        · rename_i j' term' trP hd
          split at h
          · exact absurd h (by simp)
          · rename_i e0 tr0 hl
            simp only [Option.some.injEq, Prod.mk.injEq] at h
            obtain ⟨h1, h2⟩ := h
            subst h1; subst h2
            exact GoodTrace.step (pumpDrain_pumpRun env _ _ _ _ _ _ hd) (ih _ _ _ _ _ hl)
      · simp only [Option.some.injEq, Prod.mk.injEq] at h
        obtain ⟨h1, h2⟩ := h
        subst h1; subst h2
        exact GoodTrace.waitExit

theorem pauseLoop_head (env : PauseEnv) (fuel k j : Nat) (e : ExitKind) (tr : List Ev)
    (h : pauseLoop env fuel false k j = some (e, tr)) :
    tr.head? = some (Ev.checkTerm false) := by
  cases fuel with
  | zero => simp [pauseLoop] at h
  | succ n =>
    simp only [pauseLoop] at h
    split at h
    · simp at *
    · split at h
      · split at h
        · exact absurd h (by simp)
        · split at h
          · exact absurd h (by simp)
          · simp only [Option.some.injEq, Prod.mk.injEq] at h
            obtain ⟨h1, h2⟩ := h
            subst h2; rfl
      · simp only [Option.some.injEq, Prod.mk.injEq] at h
        obtain ⟨h1, h2⟩ := h
        subst h2; rfl


/-- C1: entered with a channel attached and not already running, the nested
pause loop resets the terminated flag on entry (so its first terminated
check reads false regardless of the flag's prior value), and its trace is a
sequence of iterations each checking the terminated flag (exiting when
true), then waiting for a frontend message (exiting when it returns false),
then draining the pump queue to exhaustion; the loop exits only via those
two conditions, and both flags are clear on return. -/
theorem runMessageLoopOnPause_structure (env : PauseEnv) (fuel : Nat)
    (c c' : NodeInspectorClient) (e : ExitKind) (tr : List Ev)
    (hch : c.channel.isSome = true) (hrun : c.running_nested_loop = false)
    (h : runMessageLoopOnPause env fuel c = .ok (some (c', .exited e tr))) :
    GoodTrace tr e ∧ tr.head? = some (Ev.checkTerm false) ∧
      c'.terminated = false ∧ c'.running_nested_loop = false := by
  cases hcc : c.channel with
  | none => rw [hcc] at hch; simp at hch
  | some d =>
    simp only [runMessageLoopOnPause, hcc, hrun, Option.isNone_some,
      Bool.false_eq_true, if_false] at h
    split at h
    · exact absurd h (by simp)
    · rename_i e0 tr0 hl
      simp only [Except.ok.injEq, Option.some.injEq, Prod.mk.injEq,
        LoopOutcome.exited.injEq] at h
      obtain ⟨hc, he, htr⟩ := h
      subst he; subst htr
      refine ⟨pauseLoop_goodTrace env fuel false 0 0 _ _ hl,
        pauseLoop_head env fuel 0 0 _ _ hl, ?_, ?_⟩
      · rw [← hc]
      · rw [← hc]

/-- Oracle used by concrete witnesses: the frontend delivers one message,
then reports it will send no more; the pump queue is always empty; nothing
sets the terminated flag. -/
def envW : PauseEnv :=
  { waitResult := fun k => k == 0,
    waitSetsTerm := fun _ => false,
    pumpResult := fun _ => false,
    pumpSetsTerm := fun _ => false }

/-- The trace `runMessageLoopOnPause` produces under `envW`. -/
def trW : List Ev :=
  [Ev.checkTerm false, Ev.wait true, Ev.pump false, Ev.checkTerm false, Ev.wait false]

/-- Concrete witness for the C1 theorem (client entered with the terminated
flag still true, which the loop resets). -/
theorem runMessageLoopOnPause_structure_witness :
    GoodTrace trW ExitKind.waitFalse ∧ trW.head? = some (Ev.checkTerm false) ∧
      (NodeInspectorClient.mk false false (some 7)).terminated = false ∧
      (NodeInspectorClient.mk false false (some 7)).running_nested_loop = false :=
  runMessageLoopOnPause_structure envW 3
    (NodeInspectorClient.mk true false (some 7))
    (NodeInspectorClient.mk false false (some 7))
    ExitKind.waitFalse trW rfl rfl rfl

/-- C2: a call to `runMessageLoopOnPause` while `running_nested_loop_` is
already set returns immediately with the Session Client unchanged (in
particular the terminated flag and the loop flag are untouched). -/
theorem runMessageLoopOnPause_reentrant (env : PauseEnv) (fuel : Nat)
    (c : NodeInspectorClient)
    (hch : c.channel.isSome = true) (hrun : c.running_nested_loop = true) :
    runMessageLoopOnPause env fuel c = .ok (some (c, .reentrant)) := by
  cases hcc : c.channel with
  | none => rw [hcc] at hch; simp at hch
  | some d => simp [runMessageLoopOnPause, hcc, hrun]

/-- Concrete witness for the C2 theorem. -/
theorem runMessageLoopOnPause_reentrant_witness :
    runMessageLoopOnPause envW 5 (NodeInspectorClient.mk false true (some 3)) =
      .ok (some (NodeInspectorClient.mk false true (some 3), .reentrant)) :=
  runMessageLoopOnPause_reentrant envW 5 (NodeInspectorClient.mk false true (some 3)) rfl rfl

/-- C9: `runMessageLoopOnPause` with a null channel fails its channel
assertion; with a channel attached the call never fails an assertion (it
always returns an `ok` result). -/
theorem runMessageLoopOnPause_channel_assert (env : PauseEnv) (fuel : Nat)
    (c : NodeInspectorClient) :
    (c.channel = none → runMessageLoopOnPause env fuel c = .error .assertFail) ∧
    (c.channel.isSome = true → ∃ r, runMessageLoopOnPause env fuel c = .ok r) := by
  constructor
  · intro hcc
    simp [runMessageLoopOnPause, hcc]
  · intro hch
    cases hcc : c.channel with
    | none => rw [hcc] at hch; simp at hch
    | some d =>
      simp only [runMessageLoopOnPause, hcc, Option.isNone_some,
        Bool.false_eq_true, if_false]
      by_cases hrun : c.running_nested_loop = true
      · simp [hrun]
      · simp only [hrun, if_false]
        cases hl : pauseLoop env fuel false 0 0 with
        | none => exact ⟨none, rfl⟩
        | some v => exact ⟨_, rfl⟩

/-- Concrete witness for the C9 theorem: the assertion fires on a
channel-less client and an attached client yields an `ok` result. -/
theorem runMessageLoopOnPause_channel_assert_witness :
    runMessageLoopOnPause envW 2 (NodeInspectorClient.mk false false none) =
        .error .assertFail ∧
      ∃ r, runMessageLoopOnPause envW 2 (NodeInspectorClient.mk false false (some 7)) =
        .ok r :=
  ⟨(runMessageLoopOnPause_channel_assert envW 2
      (NodeInspectorClient.mk false false none)).1 rfl,
   (runMessageLoopOnPause_channel_assert envW 2
      (NodeInspectorClient.mk false false (some 7))).2 rfl⟩


/-- C3: `StartIoThread` is idempotent — with a controller already present
it returns true at once, performing no bind and leaving the agent
unchanged; and any two consecutive calls without an intervening `Stop`
(from a state with a Session Client) perform at most one transport bind
and, when the first call's bind result is a success, both calls return
true. -/
theorem startIoThread_idempotent (a : Agent) (b1 b2 : Bool)
    (hcl : a.client.isSome = true) :
    (a.io.isSome = true → Agent.StartIoThread b1 a = .ok (a, true, 0)) ∧
    ∃ a1 r1 n1 a2 r2 n2,
      Agent.StartIoThread b1 a = .ok (a1, r1, n1) ∧
      Agent.StartIoThread b2 a1 = .ok (a2, r2, n2) ∧
      n1 + n2 ≤ 1 ∧
      (b1 = true → r1 = true ∧ r2 = true) := by
  have hne : a.client.isNone = false := by
    cases hc : a.client with
    | none => rw [hc] at hcl; simp at hcl
    | some c => rfl
  constructor
  · intro hio
    simp [Agent.StartIoThread, hio]
  · by_cases hio : a.io.isSome = true
    · refine ⟨a, true, 0, a, true, 0, ?_, ?_, by simp, fun _ => ⟨rfl, rfl⟩⟩
      · simp [Agent.StartIoThread, hio]
      · simp [Agent.StartIoThread, hio]
    · simp only [Bool.not_eq_true] at hio
      cases b1 with
      | true =>
        refine ⟨{ a with enabled := true, io := some () }, true, 1,
          { a with enabled := true, io := some () }, true, 0, ?_, ?_, by simp,
          fun _ => ⟨rfl, rfl⟩⟩
        · simp [Agent.StartIoThread, hio, hne]
        · simp [Agent.StartIoThread]
      | false =>
        refine ⟨{ a with enabled := true, io := some (), client := none }, false, 1,
          { a with enabled := true, io := some (), client := none }, true, 0, ?_, ?_,
          by simp, by simp⟩
        · simp [Agent.StartIoThread, hio, hne]
        · simp [Agent.StartIoThread]

/-- Concrete witness for the C3 theorem. -/
theorem startIoThread_idempotent_witness :
    ((Agent.mk (some freshClient) (some ()) false emptyPath).io.isSome = true →
      Agent.StartIoThread true (Agent.mk (some freshClient) (some ()) false emptyPath) =
        .ok (Agent.mk (some freshClient) (some ()) false emptyPath, true, 0)) ∧
    ∃ a1 r1 n1 a2 r2 n2,
      Agent.StartIoThread true (Agent.mk (some freshClient) (some ()) false emptyPath) =
        .ok (a1, r1, n1) ∧
      Agent.StartIoThread true a1 = .ok (a2, r2, n2) ∧
      n1 + n2 ≤ 1 ∧
      (true = true → r1 = true ∧ r2 = true) :=
  startIoThread_idempotent (Agent.mk (some freshClient) (some ()) false emptyPath) true true rfl

/-- C4: when the transport bind fails, `StartIoThread` returns false having
released the Session Client, and a subsequent `Dispatch` fails its
client assertion. -/
theorem startIoThread_bindFail_dispatch_asserts (a : Agent)
    (hio : a.io = none) (hcl : a.client.isSome = true) :
    ∃ a', Agent.StartIoThread false a = .ok (a', false, 1) ∧
      a'.client = none ∧
      Agent.Dispatch a' = .error .assertFail := by
  have hne : a.client.isNone = false := by
    cases hc : a.client with
    | none => rw [hc] at hcl; simp at hcl
    | some c => rfl
  refine ⟨{ a with enabled := true, io := some (), client := none }, ?_, rfl, rfl⟩
  simp [Agent.StartIoThread, hio, hne]

/-- Concrete witness for the C4 theorem. -/
theorem startIoThread_bindFail_dispatch_asserts_witness :
    ∃ a', Agent.StartIoThread false (Agent.mk (some freshClient) none false emptyPath) =
        .ok (a', false, 1) ∧
      a'.client = none ∧
      Agent.Dispatch a' = .error .assertFail :=
  startIoThread_bindFail_dispatch_asserts (Agent.mk (some freshClient) none false emptyPath) rfl rfl

/-- C10: `PauseOnNextJavascriptStatement` on an agent whose Session Client
exists but has no channel attached returns successfully, schedules nothing
and changes no state; whereas `Dispatch` and `Disconnect` fail their client
assertions on a client-less agent, and `Connect` fails there too (by a
member call through the null client pointer rather than an assertion). -/
theorem pauseOnNextStatement_noChannel_noop (a : Agent) (reason : String)
    (delegate : Nat) (c : NodeInspectorClient)
    (hcl : a.client = some c) (hch : c.channel = none) :
    Agent.PauseOnNextJavascriptStatement reason a = .ok (a, []) ∧
    ∀ b : Agent, b.client = none →
      Agent.Dispatch b = .error .assertFail ∧
      Agent.Disconnect b = .error .assertFail ∧
      Agent.Connect delegate b = .error .nullDeref ∧
      Agent.PauseOnNextJavascriptStatement reason b = .error .nullDeref := by
  constructor
  · simp [Agent.PauseOnNextJavascriptStatement, hcl, hch]
  · intro b hb
    exact ⟨by simp [Agent.Dispatch, hb], by simp [Agent.Disconnect, hb],
      by simp [Agent.Connect, hb], by simp [Agent.PauseOnNextJavascriptStatement, hb]⟩

/-- Concrete witness for the C10 theorem. -/
theorem pauseOnNextStatement_noChannel_noop_witness :
    (Agent.PauseOnNextJavascriptStatement breakOnStart
        (Agent.mk (some freshClient) (some ()) true emptyPath) =
      .ok (Agent.mk (some freshClient) (some ()) true emptyPath, [])) ∧
    ∀ b : Agent, b.client = none →
      Agent.Dispatch b = .error .assertFail ∧
      Agent.Disconnect b = .error .assertFail ∧
      Agent.Connect 4 b = .error .nullDeref ∧
      Agent.PauseOnNextJavascriptStatement breakOnStart b = .error .nullDeref :=
  pauseOnNextStatement_noChannel_noop (Agent.mk (some freshClient) (some ()) true emptyPath)
    breakOnStart 4 freshClient rfl rfl


/-- Running a well-formed op sequence never fails an assertion, and the
channel occupancy it produces matches the spec-side occupancy function. -/
theorem runFrontOps_ok (ops : List FrontOp) :
    ∀ c : NodeInspectorClient, WfOps c.channel.isSome ops →
      ∃ c', runFrontOps ops c = .ok c' ∧
        c'.channel.isSome = channelPresentSpec c.channel.isSome ops := by
  induction ops with
  | nil => intro c _; exact ⟨c, rfl, rfl⟩
  | cons op t ih =>
    intro c h
    generalize hb0 : c.channel.isSome = b0 at h
    cases op with
    | connect d =>
      cases h with
      | conn _ _ hwf =>
        have hcc : c.channel = none := by
          cases hc : c.channel with
          | none => rfl
          | some x => rw [hc] at hb0; simp at hb0
        have hstep : connectFrontend d c = .ok { c with channel := some d } := by
          simp [connectFrontend, hcc]
        obtain ⟨c', hrun, hchan⟩ := ih { c with channel := some d } hwf
        refine ⟨c', ?_, ?_⟩
        · simp [runFrontOps, hstep, hrun]
        · rw [hchan]; simp [channelPresentSpec]
    | disconnect =>
      cases h with
      | disc _ _ hwf =>
        obtain ⟨c', hrun, hchan⟩ := ih (disconnectFrontend c) hwf
        exact ⟨c', hrun, by rw [hchan]; simp [channelPresentSpec, disconnectFrontend, quitMessageLoopOnPause]⟩

/-- C5: over every well-formed connect/disconnect sequence the channel
reference is non-null exactly as the spec-side occupancy function says
(present exactly between a connect and its matching disconnect, with no
assertion failing); and `disconnectFrontend` is `quitMessageLoopOnPause`
followed by the channel release — the terminated flag is set while the
channel is still attached, and both hold afterwards. -/
theorem channel_lifecycle (ops : List FrontOp) (c : NodeInspectorClient)
    (h : WfOps c.channel.isSome ops) :
    (∃ c', runFrontOps ops c = .ok c' ∧
      c'.channel.isSome = channelPresentSpec c.channel.isSome ops) ∧
    ∀ d : NodeInspectorClient,
      disconnectFrontend d = { quitMessageLoopOnPause d with channel := none } ∧
      (quitMessageLoopOnPause d).channel = d.channel ∧
      (quitMessageLoopOnPause d).terminated = true ∧
      (disconnectFrontend d).terminated = true :=
  ⟨runFrontOps_ok ops c h, fun _ => ⟨rfl, rfl, rfl, rfl⟩⟩

/-- Concrete witness for the C5 theorem: connect, disconnect, reconnect. -/
theorem channel_lifecycle_witness :
    (∃ c', runFrontOps [FrontOp.connect 1, FrontOp.disconnect, FrontOp.connect 2]
        freshClient = .ok c' ∧
      c'.channel.isSome = channelPresentSpec freshClient.channel.isSome
        [FrontOp.connect 1, FrontOp.disconnect, FrontOp.connect 2]) ∧
    ∀ d : NodeInspectorClient,
      disconnectFrontend d = { quitMessageLoopOnPause d with channel := none } ∧
      (quitMessageLoopOnPause d).channel = d.channel ∧
      (quitMessageLoopOnPause d).terminated = true ∧
      (disconnectFrontend d).terminated = true :=
  channel_lifecycle [FrontOp.connect 1, FrontOp.disconnect, FrontOp.connect 2]
    freshClient
    (WfOps.conn 1 _ (WfOps.disc true _ (WfOps.conn 2 [] (WfOps.nil true))))

/-- A successful `Agent.Start` leaves a fresh Session Client and an IO
Thread Controller in place. -/
theorem start_ok (b : Bool) (p : Option String) (a0 a : Agent)
    (h : Agent.Start b p a0 = .ok (a, true)) :
    a.client = some freshClient ∧ a.io = some () := by
  simp only [Agent.Start] at h
  cases hs : Agent.StartIoThread b { a0 with path := p.getD emptyPath, client := some freshClient } with
  | error e => rw [hs] at h; simp at h
  | ok v =>
    obtain ⟨a2, r, n⟩ := v
    rw [hs] at h
    simp only [Except.ok.injEq, Prod.mk.injEq] at h
    obtain ⟨h1, h2⟩ := h
    subst h1; subst h2
    simp only [Agent.StartIoThread, Option.isNone_some, Bool.false_eq_true,
      if_false] at hs
    split at hs
    · rename_i hio
      simp only [Except.ok.injEq, Prod.mk.injEq] at hs
      obtain ⟨h1, _⟩ := hs
      subst h1
      refine ⟨rfl, ?_⟩
      cases hi : a0.io with
      | none => rw [hi] at hio; simp at hio
      | some u => simp only [hi]
    · split at hs
      · simp only [Except.ok.injEq, Prod.mk.injEq] at hs
        obtain ⟨h1, _⟩ := hs
        subst h1
        exact ⟨rfl, rfl⟩
      · simp only [Except.ok.injEq, Prod.mk.injEq] at hs
        obtain ⟨_, h2, _⟩ := hs
        simp at h2

/-- C6: `Agent::FatalException` on a never-started agent is a no-op that
returns the state unchanged with no external effects; after a successful
`Start` it reports the exception through the Session Client and then
performs `WaitForDisconnect` exactly once (one `contextDestroyed`, and the
trace after the report is exactly one `WaitForDisconnect` call's trace). -/
theorem fatalException_start_split (m : V8Message) :
    (∀ a : Agent, a.IsStarted = false → Agent.FatalException m a = .ok (a, [])) ∧
    (∀ (b : Bool) (p : Option String) (a0 a : Agent),
      Agent.Start b p a0 = .ok (a, true) →
      ∃ evs, Agent.WaitForDisconnect a = .ok (a, evs) ∧
        Agent.FatalException m a = .ok (a, FxEv.report (reportedScriptId m) :: evs) ∧
        List.count FxEv.ctxDestroyed evs = 1) := by
  constructor
  · intro a h
    simp [Agent.FatalException, h]
  · intro b p a0 a h
    obtain ⟨hcl, hio⟩ := start_ok b p a0 a h
    have hwd : Agent.WaitForDisconnect a = .ok (a, [FxEv.ctxDestroyed, FxEv.ioWait]) := by
      simp [Agent.WaitForDisconnect, hcl, hio]
    refine ⟨[FxEv.ctxDestroyed, FxEv.ioWait], hwd, ?_, rfl⟩
    have hst : a.IsStarted = true := by simp [Agent.IsStarted, hcl]
    simp [Agent.FatalException, hst, hwd]

/-- Concrete witness for the C6 theorem: a default-constructed agent, and
an agent started with a successful bind. -/
theorem fatalException_start_split_witness :
    Agent.FatalException (V8Message.mk 3 true 1 3 none (some 7)) Agent.init =
        .ok (Agent.init, []) ∧
      ∃ evs, Agent.WaitForDisconnect (Agent.mk (some freshClient) (some ()) true emptyPath) =
          .ok (Agent.mk (some freshClient) (some ()) true emptyPath, evs) ∧
        Agent.FatalException (V8Message.mk 3 true 1 3 none (some 7))
            (Agent.mk (some freshClient) (some ()) true emptyPath) =
          .ok (Agent.mk (some freshClient) (some ()) true emptyPath,
            FxEv.report (reportedScriptId (V8Message.mk 3 true 1 3 none (some 7))) :: evs) ∧
        List.count FxEv.ctxDestroyed evs = 1 :=
  ⟨(fatalException_start_split (V8Message.mk 3 true 1 3 none (some 7))).1 Agent.init rfl,
   (fatalException_start_split (V8Message.mk 3 true 1 3 none (some 7))).2 true none
     Agent.init (Agent.mk (some freshClient) (some ()) true emptyPath) rfl⟩

/-- C7: the script id passed to `exceptionThrown` is zero exactly when the
stack trace is non-empty with at least one frame whose frame-0 script id
equals the message's script id, and is the message's script id otherwise. -/
theorem fatalException_scriptId (m : V8Message) :
    (m.hasStackTrace = true ∧ m.frameCount > 0 ∧ m.scriptId = m.topFrameScriptId →
      (clientFatalException m).scriptId = 0) ∧
    (¬(m.hasStackTrace = true ∧ m.frameCount > 0 ∧ m.scriptId = m.topFrameScriptId) →
      (clientFatalException m).scriptId = m.scriptId) := by
  constructor
  · intro h
    simp [clientFatalException, reportedScriptId, h]
  · intro h
    simp [clientFatalException, reportedScriptId, h]

/-- Concrete witness for the C7 theorem: one message with a matching top
frame (zeroed) and one with too few frames (passed through). -/
theorem fatalException_scriptId_witness :
    (clientFatalException (V8Message.mk 3 true 1 3 none none)).scriptId = 0 ∧
    (clientFatalException (V8Message.mk 3 true 0 3 none none)).scriptId = 3 :=
  ⟨(fatalException_scriptId (V8Message.mk 3 true 1 3 none none)).1
      ⟨rfl, by decide, rfl⟩,
   (fatalException_scriptId (V8Message.mk 3 true 0 3 none none)).2 (by decide)⟩

/-- C8: called with a function first argument, `CallAndPauseOnStart`
requests a "Break on start" pause before calling that function on exactly
the remaining arguments in order, and its return-value slot is exactly the
call's result (set when non-empty, unset otherwise). -/
theorem callAndPauseOnStart_behaviour (call : V8Val → List V8Val → Option V8Val)
    (f : V8Val) (rest : List V8Val) (hf : f.isFunction = true) :
    CallAndPauseOnStart call (f :: rest) =
      .ok (call f rest, [CpEv.pauseRequested breakOnStart, CpEv.called f rest]) := by
  simp [CallAndPauseOnStart, hf]

/-- Concrete witness for the C8 theorem. -/
theorem callAndPauseOnStart_behaviour_witness :
    CallAndPauseOnStart (fun f as => some (V8Val.mk (f.id + as.length) false))
        [V8Val.mk 1 true, V8Val.mk 2 false] =
      .ok (some (V8Val.mk 2 false),
        [CpEv.pauseRequested breakOnStart,
         CpEv.called (V8Val.mk 1 true) [V8Val.mk 2 false]]) :=
  callAndPauseOnStart_behaviour (fun f as => some (V8Val.mk (f.id + as.length) false))
    (V8Val.mk 1 true) [V8Val.mk 2 false] rfl

end Inspector
